import Mathlib

/-!
Verification of the MonitorJS sampling / statistics / alerting engine
(`src/index.js`) against its natural-language specification.

The JavaScript source is shallowly embedded: JS numbers are modelled by `ℚ`
(the claims only exercise exact arithmetic on rationals; division by zero,
where JS would produce `Infinity`/`NaN`, is outside every claim's scope),
JS `null`-or-number fields by `Option ℚ`, JS objects used as string-keyed
maps by functions `String → Option α`, JS strings by `List Char`, and a
thrown JS error by `Except.error` carrying the error message.
-/

namespace MonitorJS

/-- One per-item record of `this.db` as created by the constructor and
mutated by `set`: the rolling `buffer` plus the derived statistics.
Fields mirror `src/index.js` lines 123–133 exactly; the five statistics
start as `null` (`none`). -/
structure DB where
  buffer : List ℚ
  bufferSize : ℕ
  max : ℚ
  min : ℚ
  avg : Option ℚ
  avgPct : Option ℚ
  now : Option ℚ
  nowPct : Option ℚ
  sum : Option ℚ
deriving DecidableEq, Repr

/-- The `this.db[value.name] = {...}` initializer in the constructor
(`src/index.js` lines 123–133): empty buffer, configured capacity and
bounds, all statistics `null`. -/
def initDB (bufferSize : ℕ) (mx mn : ℚ) : DB :=
  { buffer := []
    bufferSize := bufferSize
    max := mx
    min := mn
    avg := none
    avgPct := none
    now := none
    nowPct := none
    sum := none }

/-- The body of `MonitorJS.set` (`src/index.js` lines 167–182) acting on one
item's db record.  `newValue` is the value produced by awaiting the item's
`setter()` (an external asynchronous capability, so its result is a
parameter here).  Line by line:
* `if (bufferSize < buffer.length) buffer.shift()` — drop the oldest entry
  (`List.tail`, a no-op on `[]` exactly like `shift`);
* `if (now !== null) buffer.push(now)` — push the previous `now` if any;
* `now = newValue; buffer.push(now)` — store and push the new sample;
* recompute `sum` (a `reduce` with initial value 0), `avg`, `avgPct`,
  `nowPct`. -/
def setStat (d : DB) (newValue : ℚ) : DB :=
  let buf0 := if d.bufferSize < d.buffer.length then d.buffer.tail else d.buffer
  let buf1 := match d.now with
    | some prev => buf0 ++ [prev]
    | none => buf0
  let buf2 := buf1 ++ [newValue]
  let s := buf2.foldl (fun acc v => acc + v) 0
  let a := s / (buf2.length : ℚ)
  { d with
    buffer := buf2
    now := some newValue
    sum := some s
    avg := some a
    avgPct := some (a / d.max * 100)
    nowPct := some (newValue / d.max * 100) }

/-- Recording a whole sequence of samples on one item: `set` applied once
per awaited setter value, in order. -/
def sampleRun (d : DB) (vs : List ℚ) : DB :=
  vs.foldl setStat d

/-- ECMAScript strict equality `x === v` where `x` is a db field holding
`null` or a number and `v` is a number: `null === v` is `false`, and two
numbers compare by value. -/
def jsStrictEq (x : Option ℚ) (v : ℚ) : Bool :=
  match x with
  | some a => a == v
  | none => false

/-- ECMAScript relational comparison `x > v` where `x` is a db field
holding `null` or a number: `null` is coerced by `ToNumber` to `0`, so
`null > v` is `0 > v`. -/
def jsGt (x : Option ℚ) (v : ℚ) : Bool :=
  match x with
  | some a => decide (a > v)
  | none => decide ((0 : ℚ) > v)

/-- ECMAScript relational comparison `x < v` where `x` is a db field
holding `null` or a number: `null` is coerced by `ToNumber` to `0`, so
`null < v` is `0 < v`. -/
def jsLt (x : Option ℚ) (v : ℚ) : Bool :=
  match x with
  | some a => decide (a < v)
  | none => decide ((0 : ℚ) < v)

/-- The twelve keys of the `conditions` table (`src/index.js` lines
40–53). -/
inductive ConditionKind where
  | equal | more | less
  | equal_pct | more_pct | less_pct
  | equal_avg | more_avg | less_avg
  | equal_avg_pct | more_avg_pct | less_avg_pct
deriving DecidableEq, Repr

/-- The string-to-kind reading of the `conditions` table keys, as used by
`joi.string().valid(...Object.keys(this.conditions))` in `alertSchema` and
by `this.conditions[condition]` in `check`. -/
def conditionOfString (s : String) : Option ConditionKind :=
  if s = "equal" then some .equal
  else if s = "more" then some .more
  else if s = "less" then some .less
  else if s = "equal_pct" then some .equal_pct
  else if s = "more_pct" then some .more_pct
  else if s = "less_pct" then some .less_pct
  else if s = "equal_avg" then some .equal_avg
  else if s = "more_avg" then some .more_avg
  else if s = "less_avg" then some .less_avg
  else if s = "equal_avg_pct" then some .equal_avg_pct
  else if s = "more_avg_pct" then some .more_avg_pct
  else if s = "less_avg_pct" then some .less_avg_pct
  else none

/-- `check`'s built-in path evaluates
``eval(`this.db[itemName].${this.conditions[condition]} alert.value`)``:
each kind pairs one db field (`now`, `nowPct`, `avg`, `avgPct`) with one
operator (`===`, `>`, `<`) exactly as the `conditions` table spells it
(`equal: "now ==="`, `more: "now >"`, ..., `less_avg_pct: "avgPct <"`). -/
def evalCondition (k : ConditionKind) (d : DB) (v : ℚ) : Bool :=
  match k with
  | .equal => jsStrictEq d.now v
  | .more => jsGt d.now v
  | .less => jsLt d.now v
  | .equal_pct => jsStrictEq d.nowPct v
  | .more_pct => jsGt d.nowPct v
  | .less_pct => jsLt d.nowPct v
  | .equal_avg => jsStrictEq d.avg v
  | .more_avg => jsGt d.avg v
  | .less_avg => jsLt d.avg v
  | .equal_avg_pct => jsStrictEq d.avgPct v
  | .more_avg_pct => jsGt d.avgPct v
  | .less_avg_pct => jsLt d.avgPct v

/-- An alert's validated `condition`: either one of the twelve named kinds
(a string in the source) or a custom predicate.  The predicate receives
`this.db[itemName]` as `check` passes it, which is `undefined` (`none`)
when no db record exists for the item. -/
inductive Cond where
  | builtin (k : ConditionKind)
  | custom (p : Option DB → Bool)

/-- A stored alert, keyed by name inside its item
(`this.items[name].alerts`).  `CB` is the (opaque, user-supplied) type of
callback capabilities; `function` is `none` when the alert object carries
no callback.  `times` is `none` when the optional `times` key was absent
(the alert schema gives it no default). -/
structure Alert (CB : Type) where
  name : String
  condition : Cond
  value : ℚ
  function : Option CB
  times : Option (List (List Char))

/-- A stored item configuration (`this.items[name]`) after validation:
defaults applied and the alerts array folded into a name-keyed map.  The
`setter` capability is an external asynchronous value source; it is kept
as configuration data (a stream of its successive return values) and `set`
receives the awaited value as a parameter. -/
structure Item (CB : Type) where
  name : String
  setter : ℕ → ℚ
  interval : ℚ
  alerts : String → Option (Alert CB)
  times : List (List Char)
  max : ℚ
  min : ℚ
  bufferSize : ℕ

/-- The destructured return value of an alert callback
(`const { db, item, alertObject } = (await alert.function(...)) || {}`):
each field is `none` when the returned object lacks that property. -/
structure CallbackResult (CB : Type) where
  db : Option DB
  item : Option (Item CB)
  alertObject : Option (Alert CB)

/-- The engine state: the two string-keyed objects `this.items` and
`this.db` (the `intervalIds` bookkeeping is scheduling-only and carries no
claim).  A JS object keyed by strings is modelled as a partial map. -/
structure MonitorState (CB : Type) where
  items : String → Option (Item CB)
  db : String → Option DB

/-- JS property assignment `m[k] = v` on a string-keyed object viewed as a
partial map. -/
def updateMap {α : Type} (m : String → Option α) (k : String) (v : α) :
    String → Option α :=
  fun n => if n = k then some v else m n

/-- `MonitorJS.get` (`src/index.js` lines 156–158):
`this.db.hasOwnProperty(itemName) ? this.db[itemName] : undefined`, i.e.
exactly the partial-map lookup. -/
def get {CB : Type} (st : MonitorState CB) (itemName : String) : Option DB :=
  st.db itemName

/-- Engine-level `MonitorJS.set`: looks up the item (reading `.setter` of
`undefined` throws), looks up the db record (reading `.bufferSize` of
`undefined` throws), and applies the `set` body `setStat` with the awaited
setter value `newValue`. -/
def setItem {CB : Type} (st : MonitorState CB) (itemName : String)
    (newValue : ℚ) : Except String (MonitorState CB) :=
  match st.items itemName with
  | none => .error "TypeError: cannot read setter of undefined"
  | some _ =>
    match st.db itemName with
    | none => .error "TypeError: cannot read bufferSize of undefined"
    | some d => .ok { st with db := updateMap st.db itemName (setStat d newValue) }

/-- The `fire` computation inside `check`: a string condition is resolved
through the `conditions` table and evaluated against the db record (field
access on an `undefined` db record throws); a custom condition function is
applied to `this.db[itemName]` as-is. -/
def evalCond (c : Cond) (d : Option DB) (v : ℚ) : Except String Bool :=
  match c with
  | .builtin k =>
    match d with
    | none => .error "TypeError: cannot read properties of undefined"
    | some rec0 => .ok (evalCondition k rec0 v)
  | .custom p => .ok (p d)

/-- `MonitorJS.check` (`src/index.js` lines 191–211).  `runCB` interprets a
callback capability on the three arguments `check` passes
(`this.db[itemName]`, `this.items[itemName]`,
`this.items[itemName].alerts[alertName]`); it returns `none` when the
callback returns nothing (the `|| {}` default).  When the condition fires:
calling an absent `alert.function` throws; otherwise the three optional
replacements are applied in source order — `db`, then `item`, then
`alertObject` (the last one assigning into the alerts map of the *current*
`this.items[itemName]`, i.e. of the replacement item if one was just
installed). -/
def check {CB : Type}
    (runCB : CB → Option DB → Item CB → Alert CB → Option (CallbackResult CB))
    (st : MonitorState CB) (itemName alertName : String) :
    Except String (MonitorState CB) :=
  match st.items itemName with
  | none => .error "TypeError: cannot read alerts of undefined"
  | some item =>
    match item.alerts alertName with
    | none => .error "TypeError: cannot read condition of undefined"
    | some alert =>
      match evalCond alert.condition (st.db itemName) alert.value with
      | .error e => .error e
      | .ok false => .ok st
      | .ok true =>
        match alert.function with
        | none => .error "TypeError: alert.function is not a function"
        | some cb =>
          let r := (runCB cb (st.db itemName) item alert).getD ⟨none, none, none⟩
          let db1 := match r.db with
            | some d => updateMap st.db itemName d
            | none => st.db
          let items1 := match r.item with
            | some it => updateMap st.items itemName it
            | none => st.items
          match r.alertObject with
          | none => .ok ⟨items1, db1⟩
          | some ao =>
            match items1 itemName with
            | none => .error "TypeError: cannot set alerts of undefined"
            | some it1 =>
              .ok ⟨updateMap items1 itemName
                     { it1 with alerts := updateMap it1.alerts alertName ao },
                   db1⟩

/-- JavaScript `String.prototype.split` with a single-character separator,
on strings modelled as `List Char`: `"".split(sep)` is `[""]`, and each
occurrence of the separator starts a new group. -/
def jsSplit (sep : Char) : List Char → List (List Char)
  | [] => [[]]
  | c :: rest =>
    match jsSplit sep rest with
    | [] => [[]]
    | g :: gs => if c = sep then [] :: g :: gs else (c :: g) :: gs

/-- JavaScript `Number()` on the strings the time schema admits: a
nonempty string of decimal digits parses to the corresponding natural
number; every other input is modelled as `none` (standing for `NaN`; the
claims about `timeConverter` only quantify over `<integer>_<unit>`
strings, whose value part is a nonempty digit string). -/
def jsNumberNat (s : List Char) : Option ℕ :=
  if s ≠ [] ∧ s.all (fun c => c.isDigit)
  then some (s.foldl (fun acc c => acc * 10 + (c.toNat - 48)) 0)
  else none

/-- `MonitorJS.timeConverter` (`src/index.js` lines 143–149):
`const [value, mark] = time.split("_")`, then the three-step conditional
chain `h → 60*60*1000`, `m → 60*1000`, `s → 1000`, defaulting to `0`.
`none` in the result stands for `NaN` (a `NaN` numeric value survives the
multiplications). -/
def timeConverter (time : List Char) : Option ℚ :=
  let parts := jsSplit '_' time
  let value := parts.getD 0 []
  let mark := parts.getD 1 []
  let n := jsNumberNat value
  let milSec : Option ℚ :=
    if mark = ['h'] then n.map (fun k => (k : ℚ) * (60 * 60 * 1000)) else some 0
  let milSec := if mark = ['m'] then n.map (fun k => (k : ℚ) * (60 * 1000)) else milSec
  let milSec := if mark = ['s'] then n.map (fun k => (k : ℚ) * 1000) else milSec
  milSec

/-- The `timeSchema` pattern `/^\d+_[smh]$/`: one or more digits, an
underscore, then exactly one of `s`, `m`, `h`. -/
def timeSchemaOK (s : List Char) : Bool :=
  let ds := s.takeWhile (fun c => c.isDigit)
  let rest := s.dropWhile (fun c => c.isDigit)
  ds ≠ [] && (rest = ['_', 's'] || rest = ['_', 'm'] || rest = ['_', 'h'])

/-- The caller-supplied `condition` field before validation: a string or a
function (`joi.alternatives`). -/
inductive CondInput where
  | str (s : String)
  | fn (p : Option DB → Bool)

/-- A caller-supplied alert configuration object: `none` fields model
absent keys.  (A key present with a value of the wrong JS runtime type is
rejected by `joi` just like an absent required key; the embedding types
each present value.) -/
structure AlertConfig (CB : Type) where
  name : Option String
  condition : Option CondInput
  value : Option ℚ
  function : Option CB
  times : Option (List (List Char))

/-- A caller-supplied item configuration object: `none` fields model
absent keys. -/
structure ItemConfig (CB : Type) where
  name : Option String
  setter : Option (ℕ → ℚ)
  interval : Option ℚ
  alerts : Option (List (AlertConfig CB))
  times : Option (List (List Char))
  max : Option ℚ
  min : Option ℚ
  bufferSize : Option ℕ

/-- The result of `itemSchema.validate` before the constructor body turns
the alerts array into a map.  `alertsList = none` models `joi`'s literal
`.default({})` for an absent `alerts` key: the default is a plain object,
not an array, so the constructor's `for...of` over it throws. -/
structure ValidItem (CB : Type) where
  name : String
  setter : ℕ → ℚ
  interval : ℚ
  alertsList : Option (List (Alert CB))
  times : List (List Char)
  max : ℚ
  min : ℚ
  bufferSize : ℕ

/-- `alertSchema.validate` (`src/index.js` lines 70–76): `name`,
`condition` and `value` are required; a string condition must be one of
the twelve `conditions` keys; `function` is required as well, because the
schema reuses `joiFunction`, which carries `.required()` (the jsdoc marks
it optional, but the schema does not); `times` is optional with no
default, and each entry must match the time pattern. -/
def validateAlert {CB : Type} (c : AlertConfig CB) : Except String (Alert CB) := do
  let name ← match c.name with
    | some s => pure s
    | none => Except.error "alert name is required"
  let condIn ← match c.condition with
    | some ci => pure ci
    | none => Except.error "alert condition is required"
  let cond ← match condIn with
    | .str s =>
      match conditionOfString s with
      | some k => pure (Cond.builtin k)
      | none => Except.error "alert condition must be one of the known conditions or a function"
    | .fn p => pure (Cond.custom p)
  let value ← match c.value with
    | some v => pure v
    | none => Except.error "alert value is required"
  let fn ← match c.function with
    | some f => pure f
    | none => Except.error "alert function is required"
  let times ← match c.times with
    | none => pure (none : Option (List (List Char)))
    | some ts =>
      if ts.all timeSchemaOK then pure (some ts)
      else Except.error "alert times must match the time pattern"
  pure { name := name, condition := cond, value := value,
         function := some fn, times := times }

/-- `itemSchema.validate` (`src/index.js` lines 95–104): `name` is
required; `setter` is required (again via `joiFunction`'s `.required()`);
`interval`, `max`, `min`, `bufferSize` default to 1000, 100, 0, 200;
`alerts` validates each entry against the alert schema and defaults to the
(non-iterable) `{}` when absent; `times` defaults to `[]` and each entry
must match the time pattern. -/
def validateItem {CB : Type} (c : ItemConfig CB) : Except String (ValidItem CB) := do
  let name ← match c.name with
    | some s => pure s
    | none => Except.error "item name is required"
  let setter ← match c.setter with
    | some f => pure f
    | none => Except.error "item setter is required"
  let alertsList ← match c.alerts with
    | none => pure (none : Option (List (Alert CB)))
    | some l => do
      let va ← l.mapM validateAlert
      pure (some va)
  let times ← match c.times with
    | none => pure ([] : List (List Char))
    | some ts =>
      if ts.all timeSchemaOK then pure ts
      else Except.error "item times must match the time pattern"
  pure { name := name, setter := setter, interval := c.interval.getD 1000,
         alertsList := alertsList, times := times, max := c.max.getD 100,
         min := c.min.getD 0, bufferSize := c.bufferSize.getD 200 }

/-- The constructor body's alerts loop (`src/index.js` lines 117–121):
`const alerts = {}; for (const alert of value.alerts) alerts[alert.name] =
alert;` — a left fold of property assignments into an initially empty
map. -/
def alertsMapOf {CB : Type} (l : List (Alert CB)) : String → Option (Alert CB) :=
  l.foldl (fun m al => updateMap m al.name al) (fun _ => none)

/-- One iteration of the constructor's item loop after successful
validation: store the item (with its alerts map) under its name and create
the fresh db record. -/
def addItem {CB : Type} (st : MonitorState CB) (v : ValidItem CB)
    (l : List (Alert CB)) : MonitorState CB :=
  let item : Item CB :=
    { name := v.name, setter := v.setter, interval := v.interval,
      alerts := alertsMapOf l, times := v.times, max := v.max, min := v.min,
      bufferSize := v.bufferSize }
  { items := updateMap st.items v.name item,
    db := updateMap st.db v.name (initDB v.bufferSize v.max v.min) }

/-- The constructor's `for (const item of items)` loop
(`src/index.js` lines 108–136): validate each configuration in order,
throwing on the first validation error; on success, iterate the validated
`alerts` (throwing if it is the non-iterable `{}` default), build the
alerts map, and install the item and its fresh db record. -/
def constructAux {CB : Type} :
    List (ItemConfig CB) → MonitorState CB → Except String (MonitorState CB)
  | [], st => .ok st
  | c :: rest, st =>
    match validateItem c with
    | .error e => .error e
    | .ok v =>
      match v.alertsList with
      | none => .error "TypeError: value.alerts is not iterable"
      | some l => constructAux rest (addItem st v l)

/-- `new MonitorJS(items)`: start from empty `this.items` / `this.db` and
run the constructor loop; a thrown validation error means no instance is
produced. -/
def construct {CB : Type} (items : List (ItemConfig CB)) :
    Except String (MonitorState CB) :=
  constructAux items ⟨fun _ => none, fun _ => none⟩

/-! Concrete fixtures used to evaluate the embedded code on specific
inputs.  `Unit` serves as the callback-capability type where the callback
behaviour itself is fixed by the interpretation function. -/

/-- A freshly constructed db record with the default capacity and bounds:
no sample recorded yet, all statistics `null`. -/
def dbFresh : DB := initDB 200 100 0

/-- A replacement statistics record, distinguishable from `dbFresh`, for
callbacks that return a new `db`. -/
def sentinelDB : DB :=
  { buffer := [50], bufferSize := 10, max := 100, min := 0, avg := some 50,
    avgPct := some 50, now := some 50, nowPct := some 50, sum := some 50 }

/-- An alert with built-in condition `less` and value 5, with a callback
capability attached. -/
def alertLess : Alert Unit :=
  { name := "a", condition := .builtin .less, value := 5,
    function := some (), times := none }

/-- An alert whose custom condition always fires, with a callback
capability attached. -/
def alertCustomTrue : Alert Unit :=
  { name := "a", condition := .custom (fun _ => true), value := 0,
    function := some (), times := none }

/-- An alert whose custom condition always fires but which has no callback
(`function` absent). -/
def alertNoFn : Alert Unit :=
  { name := "a", condition := .custom (fun _ => true), value := 0,
    function := none, times := none }

/-- A single item named `"i"` carrying the given alert under name
`"a"`. -/
def itemWith (al : Alert Unit) : Item Unit :=
  { name := "i", setter := fun _ => 0, interval := 1000,
    alerts := updateMap (fun _ => none) "a" al, times := [], max := 100,
    min := 0, bufferSize := 200 }

/-- An engine state holding exactly the item `"i"` with the given alert
and the fresh db record — the state `new MonitorJS` produces for such a
configuration before any sample is recorded. -/
def stWith (al : Alert Unit) : MonitorState Unit :=
  { items := updateMap (fun _ => none) "i" (itemWith al),
    db := updateMap (fun _ => none) "i" dbFresh }

/-- A callback interpretation that returns a replacement statistics record
(`{ db: sentinelDB }`) and nothing else. -/
def runReplaceDB :
    Unit → Option DB → Item Unit → Alert Unit → Option (CallbackResult Unit) :=
  fun _ _ _ _ => some ⟨some sentinelDB, none, none⟩

/-- An alert configuration with every required key except `function`. -/
def alertCfgNoFn : AlertConfig Unit :=
  { name := some "a", condition := some (.str "more"), value := some 0,
    function := none, times := none }

/-- A fully valid item configuration. -/
def goodCfg : ItemConfig Unit :=
  { name := some "g", setter := some (fun _ => 1), interval := none,
    alerts := some [], times := none, max := none, min := none,
    bufferSize := none }

/-- An item configuration with every key absent: it fails the schema's
required-field constraints (no `name`, no `setter`). -/
def badCfg : ItemConfig Unit :=
  { name := none, setter := none, interval := none, alerts := none,
    times := none, max := none, min := none, bufferSize := none }

/-- Two valid alert configurations sharing the name `"x"`, distinguished
by their comparison values 1 and 2. -/
def aCfgDup1 : AlertConfig Unit :=
  { name := some "x", condition := some (.str "more"), value := some 1,
    function := some (), times := none }

/-- Second alert configuration named `"x"` (value 2). -/
def aCfgDup2 : AlertConfig Unit :=
  { name := some "x", condition := some (.str "more"), value := some 2,
    function := some (), times := none }

/-- A valid item configuration whose alerts array contains two alerts with
the same name `"x"`. -/
def dupCfg : ItemConfig Unit :=
  { name := some "i", setter := some (fun _ => 0), interval := none,
    alerts := some [aCfgDup1, aCfgDup2], times := none, max := none,
    min := none, bufferSize := none }

/-- A db record with all four derived scalars present and equal to 3. -/
def dbScalars : DB :=
  { buffer := [3], bufferSize := 3, max := 100, min := 0, avg := some 3,
    avgPct := some 3, now := some 3, nowPct := some 3, sum := some 3 }

end MonitorJS

open MonitorJS

/-- Claim C1: the history buffer length is claimed never to exceed the
configured `bufferSize` (strict FIFO ring).  Evaluating the embedded `set`
at the failing input — capacity 3, sample sequence `[10, 20, 30, 40]` —
shows the buffer reaches length 6: each `set` call pushes the previous
`now` *and* the new sample (two entries) while the
`bufferSize < buffer.length` check evicts at most one, so the buffer grows
without bound.  The code contradicts its own `// check buffer size`
comment and the documented meaning of `bufferSize`. -/
theorem C1_buffer_exceeds_capacity :
    (sampleRun (initDB 3 100 0) [10, 20, 30, 40]).bufferSize = 3 ∧
    (sampleRun (initDB 3 100 0) [10, 20, 30, 40]).buffer.length = 6 ∧
    (sampleRun (initDB 3 100 0) [10, 20, 30, 40]).buffer
      = [10, 20, 20, 30, 30, 40] := by
  refine ⟨rfl, rfl, ?_⟩
  decide

/-- Claim C2: the claim states that only the previous `now` is pushed into
history, so the history excludes the just-recorded `now` and, with
capacity 3 and samples `[10, 20]`, would be `[10]`.  Evaluating the
embedded `set` shows the code also pushes the new sample itself
(`buffer.push(this.db[itemName].now)` after `now = newValue`), leaving the
buffer `[10, 10, 20]`: the just-recorded `now` (20) is stored, and the
previous sample (10) is stored twice. -/
theorem C2_history_contains_now :
    (sampleRun (initDB 3 100 0) [10, 20]).now = some 20 ∧
    (sampleRun (initDB 3 100 0) [10, 20]).buffer = [10, 10, 20] := by
  exact ⟨rfl, by decide⟩

/-- Helper: a left fold of additions starting from `a` is `a` plus the
list sum. -/
theorem foldlAdd_eq_add_sum (l : List ℚ) :
    ∀ a : ℚ, l.foldl (fun acc v => acc + v) a = a + l.sum := by
  induction l with
  | nil => intro a; simp
  | cons x xs ih =>
    intro a
    simp only [List.foldl_cons, ih, List.sum_cons]
    ring

/-- Helper: reading an updated map at the updated key. -/
theorem updateMap_same {α : Type} (m : String → Option α) (k : String) (v : α) :
    updateMap m k v k = some v := by
  simp [updateMap]

/-- Helper: two successive updates at the same key collapse to the last
one. -/
theorem updateMap_updateMap {α : Type} (m : String → Option α) (k : String)
    (v w : α) :
    updateMap (updateMap m k v) k w = updateMap m k w := by
  funext n
  by_cases h : n = k <;> simp [updateMap, h]

/-- Claim C3: the claim states that when an alert's condition holds but no
callback is configured, `check` has no observable effect and raises no
error.  Evaluating the embedded code at such an input shows the opposite:
`check` invokes `alert.function` unconditionally once the condition fires,
so an absent callback throws a `TypeError`; moreover the alert schema
itself (via `joiFunction`, which carries `.required()`) rejects any alert
configuration lacking `function` at construction time, even though the
jsdoc documents the field as optional. -/
theorem C3_missing_callback_throws :
    check (fun _ _ _ _ => none) (stWith alertNoFn) "i" "a"
        = Except.error "TypeError: alert.function is not a function" ∧
    validateAlert alertCfgNoFn = Except.error "alert function is required" :=
  ⟨rfl, rfl⟩

/-- Claim C4 counterexample: the claim states that before the first sample
no built-in condition kind can fire, including the `less` kinds.  On a
freshly constructed item (all statistics `null`), the built-in `less`
condition with value 5 evaluates `null < 5`, which JavaScript coerces to
`0 < 5 = true`; running `check` on such an engine state applies the fired
alert's callback replacement, observably changing what `get` returns. -/
theorem C4_fires_before_first_sample :
    evalCondition .less dbFresh 5 = true ∧
    (check runReplaceDB (stWith alertLess) "i" "a").toOption.map
        (fun s => get s "i") = some (some sentinelDB) ∧
    get (stWith alertLess) "i" = some dbFresh ∧
    sentinelDB ≠ dbFresh := by
  exact ⟨rfl, rfl, rfl, by decide⟩

/-- Claim C4 amended: before the first sample (all four derived scalars
`null`), the `equal` kinds never fire, but `null` is coerced to 0 in the
relational comparisons, so each `more` kind fires exactly when `0 > V` and
each `less` kind fires exactly when `0 < V`. -/
theorem C4_amended_null_coercion (d : DB) (hn : d.now = none)
    (hnp : d.nowPct = none) (ha : d.avg = none) (hap : d.avgPct = none)
    (v : ℚ) :
    (evalCondition .equal d v = false ∧ evalCondition .equal_pct d v = false ∧
     evalCondition .equal_avg d v = false ∧
     evalCondition .equal_avg_pct d v = false) ∧
    (evalCondition .more d v = decide ((0 : ℚ) > v) ∧
     evalCondition .more_pct d v = decide ((0 : ℚ) > v) ∧
     evalCondition .more_avg d v = decide ((0 : ℚ) > v) ∧
     evalCondition .more_avg_pct d v = decide ((0 : ℚ) > v)) ∧
    (evalCondition .less d v = decide ((0 : ℚ) < v) ∧
     evalCondition .less_pct d v = decide ((0 : ℚ) < v) ∧
     evalCondition .less_avg d v = decide ((0 : ℚ) < v) ∧
     evalCondition .less_avg_pct d v = decide ((0 : ℚ) < v)) := by
  simp [evalCondition, jsStrictEq, jsGt, jsLt, hn, hnp, ha, hap]

/-- Claim C4 witness: the amended statement evaluated on the fresh db
record with comparison value 5. -/
theorem C4_amended_witness :
    evalCondition .less dbFresh 5 = decide ((0 : ℚ) < 5) ∧
    evalCondition .equal dbFresh 5 = false ∧
    evalCondition .more dbFresh 5 = decide ((0 : ℚ) > 5) :=
  ⟨(C4_amended_null_coercion dbFresh rfl rfl rfl rfl 5).2.2.1,
   (C4_amended_null_coercion dbFresh rfl rfl rfl rfl 5).1.1,
   (C4_amended_null_coercion dbFresh rfl rfl rfl rfl 5).2.1.1⟩

/-- Claim C5: after every `set`, `sum` is the arithmetic sum of the buffer
entries, `avg` is that sum divided by the buffer length, `avgPct` is
`avg / max × 100`, and `nowPct` is `now / max × 100` (stated for positive
`max`, where the rational model coincides exactly with JS division). -/
theorem C5_statistics_consistent (d : DB) (v : ℚ) (_hmax : 0 < d.max) :
    (setStat d v).sum = some ((setStat d v).buffer.sum) ∧
    (setStat d v).avg
      = some ((setStat d v).buffer.sum / ((setStat d v).buffer.length : ℚ)) ∧
    (∀ a, (setStat d v).avg = some a →
      (setStat d v).avgPct = some (a / (setStat d v).max * 100)) ∧
    (setStat d v).now = some v ∧
    (setStat d v).nowPct = some (v / (setStat d v).max * 100) := by
  refine ⟨?_, ?_, ?_, rfl, rfl⟩
  · simp [setStat, foldlAdd_eq_add_sum]
  · simp [setStat, foldlAdd_eq_add_sum]
  · intro a hA
    simp only [setStat] at hA ⊢
    injection hA with hA
    rw [← hA]

/-- Claim C5 witness: the consistency equations evaluated after recording
the sample 10 on the fresh db record (whose `max` is 100). -/
theorem C5_witness :
    (setStat dbFresh 10).sum = some ((setStat dbFresh 10).buffer.sum) ∧
    (setStat dbFresh 10).avg
      = some ((setStat dbFresh 10).buffer.sum
              / ((setStat dbFresh 10).buffer.length : ℚ)) ∧
    (∀ a, (setStat dbFresh 10).avg = some a →
      (setStat dbFresh 10).avgPct = some (a / (setStat dbFresh 10).max * 100)) ∧
    (setStat dbFresh 10).now = some 10 ∧
    (setStat dbFresh 10).nowPct = some (10 / (setStat dbFresh 10).max * 100) :=
  C5_statistics_consistent dbFresh 10 (by decide)

/-- Claim C6: with all four derived scalars present, each of the twelve
built-in condition kinds compares exactly the named scalar (`now`,
`nowPct`, `avg`, `avgPct`) against the alert's value with the named
operator (`===`, `>`, `<`). -/
theorem C6_twelve_condition_kinds (d : DB) (v n np a ap : ℚ)
    (hn : d.now = some n) (hnp : d.nowPct = some np)
    (ha : d.avg = some a) (hap : d.avgPct = some ap) :
    (evalCondition .equal d v = true ↔ n = v) ∧
    (evalCondition .more d v = true ↔ n > v) ∧
    (evalCondition .less d v = true ↔ n < v) ∧
    (evalCondition .equal_pct d v = true ↔ np = v) ∧
    (evalCondition .more_pct d v = true ↔ np > v) ∧
    (evalCondition .less_pct d v = true ↔ np < v) ∧
    (evalCondition .equal_avg d v = true ↔ a = v) ∧
    (evalCondition .more_avg d v = true ↔ a > v) ∧
    (evalCondition .less_avg d v = true ↔ a < v) ∧
    (evalCondition .equal_avg_pct d v = true ↔ ap = v) ∧
    (evalCondition .more_avg_pct d v = true ↔ ap > v) ∧
    (evalCondition .less_avg_pct d v = true ↔ ap < v) := by
  simp [evalCondition, jsStrictEq, jsGt, jsLt, hn, hnp, ha, hap, beq_iff_eq]

/-- Claim C6 witness: the kind table evaluated on a record whose four
scalars all equal 3, with comparison value 5. -/
theorem C6_witness :
    (evalCondition .more dbScalars 5 = true ↔ (3 : ℚ) > 5) ∧
    (evalCondition .less_avg_pct dbScalars 5 = true ↔ (3 : ℚ) < 5) ∧
    (evalCondition .equal dbScalars 5 = true ↔ (3 : ℚ) = 5) :=
  ⟨(C6_twelve_condition_kinds dbScalars 5 3 3 3 3 rfl rfl rfl rfl).2.1,
   (C6_twelve_condition_kinds dbScalars 5 3 3 3 3 rfl rfl rfl rfl).2.2.2.2.2.2.2.2.2.2.2,
   (C6_twelve_condition_kinds dbScalars 5 3 3 3 3 rfl rfl rfl rfl).1⟩

/-- Claim C7: when a fired alert's callback returns replacements, each
present replacement wholly overwrites the corresponding stored record and
each absent one leaves the stored record untouched; in particular a
replacement statistics record is exactly what `get` subsequently returns.
When both an item replacement and an alert replacement are present, the
alert is installed into the *replacement* item's alerts map, matching the
source's assignment order. -/
theorem C7_callback_replacement_frame {CB : Type}
    (runCB : CB → Option DB → Item CB → Alert CB → Option (CallbackResult CB))
    (st : MonitorState CB) (i a : String) (item : Item CB) (alert : Alert CB)
    (cb : CB) (r : CallbackResult CB)
    (hi : st.items i = some item) (hal : item.alerts a = some alert)
    (hfn : alert.function = some cb)
    (hfire : evalCond alert.condition (st.db i) alert.value = .ok true)
    (hcb : runCB cb (st.db i) item alert = some r) :
    ∃ st', check runCB st i a = .ok st' ∧
      (r.db = none → st'.db = st.db) ∧
      (∀ d, r.db = some d →
        st'.db = updateMap st.db i d ∧ get st' i = some d) ∧
      (r.item = none → r.alertObject = none → st'.items = st.items) ∧
      (∀ it, r.item = some it → r.alertObject = none →
        st'.items = updateMap st.items i it) ∧
      (∀ ao, r.item = none → r.alertObject = some ao →
        st'.items = updateMap st.items i
          { item with alerts := updateMap item.alerts a ao }) ∧
      (∀ it ao, r.item = some it → r.alertObject = some ao →
        st'.items = updateMap st.items i
          { it with alerts := updateMap it.alerts a ao }) := by
  rcases r with ⟨rdb, ritem, rao⟩
  cases rdb <;> cases ritem <;> cases rao <;>
    simp only [check, hi, hal, hfire, hfn, hcb, Option.getD_some,
      updateMap_same] <;>
    refine ⟨_, rfl, ?_, ?_, ?_, ?_, ?_, ?_⟩ <;>
    intros <;>
    simp_all [MonitorJS.get, updateMap_updateMap, updateMap_same]

/-- Claim C7 witness: a custom always-true alert whose callback returns a
replacement statistics record; applying the frame theorem at this concrete
input. -/
theorem C7_witness :
    ∃ st', check runReplaceDB (stWith alertCustomTrue) "i" "a" = .ok st' ∧
      ((some sentinelDB : Option DB) = none →
        st'.db = (stWith alertCustomTrue).db) ∧
      (∀ d, (some sentinelDB : Option DB) = some d →
        st'.db = updateMap (stWith alertCustomTrue).db "i" d ∧
        get st' "i" = some d) ∧
      ((none : Option (Item Unit)) = none → (none : Option (Alert Unit)) = none →
        st'.items = (stWith alertCustomTrue).items) ∧
      (∀ it, (none : Option (Item Unit)) = some it →
        (none : Option (Alert Unit)) = none →
        st'.items = updateMap (stWith alertCustomTrue).items "i" it) ∧
      (∀ ao, (none : Option (Item Unit)) = none →
        (none : Option (Alert Unit)) = some ao →
        st'.items = updateMap (stWith alertCustomTrue).items "i"
          { itemWith alertCustomTrue with
              alerts := updateMap (itemWith alertCustomTrue).alerts "a" ao }) ∧
      (∀ it ao, (none : Option (Item Unit)) = some it →
        (none : Option (Alert Unit)) = some ao →
        st'.items = updateMap (stWith alertCustomTrue).items "i"
          { it with alerts := updateMap it.alerts "a" ao }) :=
  C7_callback_replacement_frame runReplaceDB (stWith alertCustomTrue) "i" "a"
    (itemWith alertCustomTrue) alertCustomTrue ()
    ⟨some sentinelDB, none, none⟩ rfl rfl rfl rfl rfl

/-- Helper: `jsSplit` never returns the empty list of groups. -/
theorem jsSplit_ne_nil (sep : Char) (s : List Char) : jsSplit sep s ≠ [] := by
  cases s with
  | nil => simp [jsSplit]
  | cons c rest =>
    simp only [jsSplit]
    cases h : jsSplit sep rest with
    | nil => simp
    | cons g gs => by_cases hc : c = sep <;> simp [hc]

/-- Helper: splitting `ds ++ sep :: rest` where `ds` is separator-free
yields `ds` as the first group. -/
theorem jsSplit_sep_append (sep : Char) (rest : List Char) :
    ∀ ds : List Char, (∀ c ∈ ds, c ≠ sep) →
      jsSplit sep (ds ++ sep :: rest) = ds :: jsSplit sep rest := by
  intro ds
  induction ds with
  | nil =>
    intro _
    simp only [List.nil_append, jsSplit]
    cases h : jsSplit sep rest with
    | nil => exact absurd h (jsSplit_ne_nil sep rest)
    | cons g gs => simp [h]
  | cons c ds ih =>
    intro hno
    have hc : c ≠ sep := hno c (List.mem_cons_self c ds)
    have hds : ∀ x ∈ ds, x ≠ sep := fun x hx => hno x (List.mem_cons_of_mem c hx)
    simp only [List.cons_append, jsSplit, List.append_eq]
    rw [ih hds]
    simp [hc]

/-- Claim C8: on every duration string of the form `<integer>_<unit>`,
`timeConverter` multiplies the integer by 1000 for `s`, 60000 for `m`,
3600000 for `h`, and returns 0 milliseconds (not an error, not `NaN`) for
any other unit. -/
theorem C8_timeConverter_units (ds : List Char) (k : ℕ) (u : Char)
    (hds : jsNumberNat ds = some k) (hu : u ≠ '_') :
    timeConverter (ds ++ '_' :: [u]) =
      some (if u = 's' then (k : ℚ) * 1000
            else if u = 'm' then (k : ℚ) * 60000
            else if u = 'h' then (k : ℚ) * 3600000
            else 0) := by
  have hshape : ds ≠ [] ∧ ds.all (fun c => c.isDigit) := by
    by_contra hcon
    simp only [jsNumberNat, hcon, if_false] at hds
    exact Option.noConfusion hds
  have hdig : ∀ c ∈ ds, c ≠ '_' := by
    intro c hc heq
    have hd := List.all_eq_true.mp hshape.2 c hc
    subst heq
    simp [Char.isDigit] at hd
  have hsplit : jsSplit '_' (ds ++ '_' :: [u]) = ds :: jsSplit '_' [u] :=
    jsSplit_sep_append '_' [u] ds hdig
  have hsplitu : jsSplit '_' [u] = [[u]] := by
    simp [jsSplit, hu]
  simp only [timeConverter, hsplit, hsplitu, List.getD, List.getElem?_cons_zero,
    List.getElem?_cons_succ, Option.getD_some, hds]
  by_cases hh : u = 'h'
  · subst hh
    simp [hds]
    try norm_num
  · by_cases hm : u = 'm'
    · subst hm
      simp [hds]
      try norm_num
    · by_cases hs : u = 's'
      · subst hs
        simp [hds]
        try norm_num
      · simp [hds, hh, hm, hs]

/-- Claim C8 witness: `timeConverter "42_s"` computed via the theorem. -/
theorem C8_witness :
    timeConverter (['4', '2'] ++ '_' :: ['s']) = some ((42 : ℚ) * 1000) :=
  C8_timeConverter_units ['4', '2'] 42 's' (by decide) (by decide)

/-- Helper: the constructor loop throws whenever any configuration in the
remaining list fails validation, from any starting state. -/
theorem constructAux_mem_error {CB : Type} (c : ItemConfig CB) (e : String)
    (he : validateItem c = .error e) :
    ∀ (l : List (ItemConfig CB)) (st : MonitorState CB), c ∈ l →
      ∃ e2, constructAux l st = .error e2 := by
  intro l
  induction l with
  | nil => intro st h; exact absurd h (List.not_mem_nil c)
  | cons c0 rest ih =>
    intro st h
    rcases List.mem_cons.mp h with rfl | hmem
    · exact ⟨e, by simp [constructAux, he]⟩
    · cases hval : validateItem c0 with
      | error e0 => exact ⟨e0, by simp [constructAux, hval]⟩
      | ok v =>
        cases halv : v.alertsList with
        | none =>
          exact ⟨"TypeError: value.alerts is not iterable",
            by simp [constructAux, hval, halv]⟩
        | some l2 =>
          obtain ⟨e2, h2⟩ := ih (addItem st v l2) hmem
          exact ⟨e2, by simp [constructAux, hval, halv, h2]⟩

/-- Claim C9: if any item configuration in the construction input fails
the schema's constraints, `new MonitorJS(items)` throws: the result is an
error and no engine state — in particular none containing only the valid
subset of items — is produced. -/
theorem C9_invalid_configuration_fails {CB : Type}
    (items : List (ItemConfig CB)) (c : ItemConfig CB) (e : String)
    (hc : c ∈ items) (he : validateItem c = .error e) :
    ∃ e2, construct items = Except.error e2 := by
  obtain ⟨e2, h2⟩ :=
    constructAux_mem_error c e he items ⟨fun _ => none, fun _ => none⟩ hc
  exact ⟨e2, by simpa [construct] using h2⟩

/-- Claim C9 witness: a valid configuration followed by an invalid one
(all keys absent) makes the whole construction fail. -/
theorem C9_witness : ∃ e2, construct [goodCfg, badCfg] = Except.error e2 :=
  C9_invalid_configuration_fails [goodCfg, badCfg] badCfg
    "item name is required"
    (List.mem_cons_of_mem goodCfg (List.mem_cons_self badCfg []))
    rfl

/-- Helper: reading the alerts map built by the constructor loop finds the
last alert with the queried name, falling back to the initial map. -/
theorem alertsFold_eq_find {CB : Type} (n : String) :
    ∀ (l : List (Alert CB)) (m : String → Option (Alert CB)),
      (l.foldl (fun m2 al => updateMap m2 al.name al) m) n =
        (l.reverse.find? (fun al => al.name == n)).or (m n) := by
  intro l
  induction l with
  | nil => intro m; simp
  | cons al rest ih =>
    intro m
    simp only [List.foldl_cons, List.reverse_cons]
    rw [ih, List.find?_append]
    cases h : rest.reverse.find? (fun a2 => a2.name == n) with
    | some a2 => simp [Option.or]
    | none =>
      by_cases hn : al.name = n
      · simp [updateMap, List.find?, hn, Option.or]
      · have h1 : (al.name == n) = false := beq_eq_false_iff_ne.mpr hn
        have h2 : ¬n = al.name := fun h => hn h.symm
        simp [updateMap, List.find?, h1, h2, Option.or]

/-- Claim C10: the constructor folds an item's alerts array into a map
keyed by alert name, so a later alert silently replaces an earlier one
with the same name: looking up a name yields the last alert carrying it,
and constructing an item with two same-named alerts raises no error and
stores only the second. -/
theorem C10_duplicate_alerts_last_wins :
    (∀ (CB : Type) (l : List (Alert CB)) (n : String),
      alertsMapOf l n = l.reverse.find? (fun al => al.name == n)) ∧
    Option.map (fun al => al.value)
      (Option.bind
        (Option.bind (construct [dupCfg]).toOption (fun st => st.items "i"))
        (fun it => it.alerts "x")) = some 2 := by
  constructor
  · intro CB l n
    rw [alertsMapOf, alertsFold_eq_find]
    simp
  · rfl
